import Mathlib

/-!
Shallow embedding of the ratio-trigger hedge execution engine
(`hedge_server.py`): the ratio tracker, the sizing policy, the order
gateway result handling and the main polling loop, together with proofs
of the specified properties.

Modelling conventions:
* Python floats are modelled as rationals (`ℚ`); `round(x, n)` is
  round-half-to-even at `n` decimal digits (`pyRound`).
* `get_price` results are `Option ℚ` (`none` = unavailable).  Python
  truthiness of a price (`not price`) is `optTruthy`.
* A raised Python exception is modelled as `Except.error`; the venue
  interaction underlying `place_market_order` is an input
  (`Except String RawResp`): `Except.error` is a raised transport error
  in `requests.post`, a `RawResp` with `body = none` is a body on which
  `r.json()` raises.
* One iteration of the `while True:` loop is `step`; the loop driver is
  `run`, which stops when an iteration executes `break` (modelled by
  `StepOut.exit = some r`).  The ghost field `spent` records the USD
  notional committed at the venue by an order pair in which at least one
  structured success (`retCode = 0`) was received.
-/

namespace HedgeBot

/-- Python `round` to an integer: round half to even (bankers rounding). -/
def pyRoundInt (x : ℚ) : ℤ :=
  let f : ℤ := ⌊x⌋
  let frac : ℚ := x - f
  if frac < 1/2 then f
  else if 1/2 < frac then f + 1
  else if f % 2 = 0 then f else f + 1

/-- Python `round(x, n)` for nonnegative `n`, on rationals. -/
def pyRound (x : ℚ) (n : ℕ) : ℚ :=
  (pyRoundInt (x * (10 : ℚ) ^ n) : ℚ) / (10 : ℚ) ^ n

/-- Python truthiness of an optional float price: `None` and `0.0` are falsy. -/
def optTruthy : Option ℚ → Bool
  | none => false
  | some x => x != 0

/-- The hedge configuration (module-level settings of `hedge_server.py`). -/
structure Config where
  symbol_long : String
  symbol_short : String
  trigger_drop_pct : ℚ
  usd_position_size : ℚ
  max_usd_position : ℚ
  enable_scale_in : Bool
  scale_in_legs : ℕ
  scale_in_drop_step : ℚ
deriving DecidableEq, Repr

/-- Line 205: `scale_in_leg_size = usd_position_size / SCALE_IN_LEGS if ENABLE_SCALE_IN else usd_position_size`. -/
def Config.scale_in_leg_size (cfg : Config) : ℚ :=
  if cfg.enable_scale_in then cfg.usd_position_size / (cfg.scale_in_legs : ℚ)
  else cfg.usd_position_size

/-- The decoded JSON body of an order-creation response (`r.json()`):
the fields the engine reads via `.get`. -/
structure OrderResp where
  retCode : Option ℤ
  retMsg : Option String
deriving DecidableEq, Repr

/-- The raw HTTP response to `requests.post`; `body = none` models a body
on which `r.json()` raises a decode error. -/
structure RawResp where
  body : Option OrderResp
deriving DecidableEq, Repr

/-- Lines 137-164: `place_market_order` performs `r = requests.post(...)`
and `return r.json()` with no exception handling, so a transport error
(`Except.error` input) or an undecodable body propagates as a raised
exception (`Except.error` output). -/
def place_market_order (postResult : Except String RawResp) : Except String OrderResp :=
  match postResult with
  | Except.error e => Except.error e
  | Except.ok raw =>
      match raw.body with
      | none => Except.error ("JSONDecodeError")
      | some j => Except.ok j

/-- Lines 322-323 / 379-380: `r.get("retCode") == 0`. -/
def orderSuccess (r : OrderResp) : Bool := r.retCode == some 0

/-- The mutable state of the main loop. -/
structure BotState where
  initial_ratio : Option ℚ
  trigger_ratio : Option ℚ
  scale_in_executed : ℕ
  scale_in_trigger_ratios : List ℚ
deriving DecidableEq, Repr

/-- Lines 207-212: the trigger ladder built at module top level; each
entry is appended only under `if initial_ratio:` (Python truthiness). -/
def buildLadder (cfg : Config) (initial_ratio : Option ℚ) : List ℚ :=
  if cfg.enable_scale_in then
    (List.range cfg.scale_in_legs).filterMap fun (i : ℕ) =>
      if optTruthy initial_ratio then
        some (initial_ratio.getD 0 *
          (1 - (cfg.trigger_drop_pct + (i : ℚ) * cfg.scale_in_drop_step) / 100))
      else none
  else []

/-- Lines 192-216: module-level state set up after the initial retrying
price fetch; `price_long`/`price_short` are the values the retry loop
ends with (the dummy pair `0, 1` when every attempt failed). -/
def initState (cfg : Config) (price_long price_short : Option ℚ) : BotState :=
  let ok := optTruthy price_long && optTruthy price_short
            && decide (0 < price_long.getD 0) && decide (0 < price_short.getD 0)
  let ir : Option ℚ :=
    if ok then some (price_long.getD 0 / price_short.getD 0) else none
  { initial_ratio := ir
    trigger_ratio := ir.map (fun r => r * (1 - cfg.trigger_drop_pct / 100))
    scale_in_executed := 0
    scale_in_trigger_ratios := buildLadder cfg ir }

/-- The order side. -/
inductive Side where
  | Buy
  | Sell
deriving DecidableEq, Repr

/-- One Order Gateway invocation: symbol, side, quantity. -/
structure Order where
  symbol : String
  side : Side
  qty : ℚ
deriving DecidableEq, Repr

/-- Why an iteration executed `break`. -/
inductive ExitReason where
  /-- Line 345: all scale-in legs executed. -/
  | scaleInCompleted
  /-- Line 309: `scale_in_executed` reached the leg count through a
  minimum-size skip. -/
  | allLegsSkipped
  /-- Line 334 break, after line 328: long succeeded, short failed. -/
  | scaleInHaltLongOnly
  /-- Line 334 break, after line 330: short succeeded, long failed. -/
  | scaleInHaltShortOnly
  /-- Line 334 break, after line 332: both scale-in orders failed. -/
  | scaleInHaltBothFailed
  /-- Line 384: single-shot hedge, both orders succeeded. -/
  | completed
  /-- Line 390: single-shot, long succeeded, short failed. -/
  | unhedgedLong
  /-- Line 396: single-shot, short succeeded, long failed. -/
  | unhedgedShort
deriving DecidableEq, Repr

/-- The observable outcome of one loop iteration: the state after it,
the Order Gateway invocations it made, the USD notional it committed
(ghost accounting), and whether it executed `break`. -/
structure StepOut where
  state : BotState
  orders : List Order
  spent : ℚ
  exit : Option ExitReason
deriving DecidableEq, Repr

/-- The inputs one loop iteration consumes from the outside world: the
two price fetches and the venue interactions behind the (at most two)
order submissions of that iteration. -/
structure CycleInput where
  long_price : Option ℚ
  short_price : Option ℚ
  longPost : Except String RawResp
  shortPost : Except String RawResp

/-- Lines 286-288: the scale-in trigger condition. -/
def scaleInFires (cfg : Config) (st : BotState) (ratio : ℚ) : Prop :=
  st.scale_in_executed < cfg.scale_in_legs ∧
  st.scale_in_executed < st.scale_in_trigger_ratios.length ∧
  ratio ≤ st.scale_in_trigger_ratios.getD st.scale_in_executed 0

instance (cfg : Config) (st : BotState) (ratio : ℚ) :
    Decidable (scaleInFires cfg st ratio) := by
  unfold scaleInFires; infer_instance

/-- Line 352: `trigger_ratio is not None and ratio <= trigger_ratio`. -/
def singleShotFires (st : BotState) (ratio : ℚ) : Prop :=
  st.trigger_ratio ≠ none ∧ ratio ≤ st.trigger_ratio.getD 0

instance (st : BotState) (ratio : ℚ) : Decidable (singleShotFires st ratio) := by
  unfold singleShotFires; infer_instance

/-- Line 292: `trade_size = min(scale_in_leg_size, MAX_USD_POSITION - (scale_in_executed * scale_in_leg_size))`. -/
def legTradeSize (cfg : Config) (executed : ℕ) : ℚ :=
  min cfg.scale_in_leg_size
    (cfg.max_usd_position - (executed : ℚ) * cfg.scale_in_leg_size)

/-- Line 355: `trade_size = min(usd_position_size, MAX_USD_POSITION)`. -/
def singleTradeSize (cfg : Config) : ℚ :=
  min cfg.usd_position_size cfg.max_usd_position

/-- Lines 298/359: `long_qty = round(trade_size / long_price, 2)`. -/
def longQty (trade_size lp : ℚ) : ℚ := pyRound (trade_size / lp) 2

/-- Lines 299/360: `short_qty = round(trade_size / short_price, 0)`. -/
def shortQty (trade_size sp : ℚ) : ℚ := pyRound (trade_size / sp) 0

/-- Lines 304/364: the minimum-order filter, `min_usd_value = 1.0`. -/
def belowMin (trade_size lp sp : ℚ) : Prop :=
  longQty trade_size lp * lp < 1 ∨ shortQty trade_size sp * sp < 1

instance (trade_size lp sp : ℚ) : Decidable (belowMin trade_size lp sp) := by
  unfold belowMin; infer_instance

/-- Lines 289-349: the body of a fired scale-in leg. -/
def tradeScaleIn (cfg : Config) (st : BotState) (inp : CycleInput)
    (lp sp : ℚ) : StepOut :=
  let trade_size := legTradeSize cfg st.scale_in_executed
  if trade_size ≤ 0 then
    -- line 295: max position reached, skip to terminal progress, continue
    ⟨{ st with scale_in_executed := cfg.scale_in_legs }, [], 0, none⟩
  else
    let long_qty := longQty trade_size lp
    let short_qty := shortQty trade_size sp
    if belowMin trade_size lp sp then
      -- lines 304-310: minimum-size skip
      if st.scale_in_executed + 1 ≥ cfg.scale_in_legs then
        ⟨{ st with scale_in_executed := st.scale_in_executed + 1 }, [], 0,
          some ExitReason.allLegsSkipped⟩
      else
        ⟨{ st with scale_in_executed := st.scale_in_executed + 1 }, [], 0, none⟩
    else
      let o1 : Order := ⟨cfg.symbol_long, Side.Buy, long_qty⟩
      let o2 : Order := ⟨cfg.symbol_short, Side.Sell, short_qty⟩
      match place_market_order inp.longPost with
      | Except.error _ =>
          -- exception raised during the first call: caught at line 411,
          -- state untouched, loop continues; the short call never happens
          ⟨st, [o1], 0, none⟩
      | Except.ok r1 =>
          match place_market_order inp.shortPost with
          | Except.error _ =>
              -- exception during the second call: the long order already
              -- has a resolved outcome, so its notional counts as spent
              ⟨st, [o1, o2], if orderSuccess r1 then trade_size else 0, none⟩
          | Except.ok r2 =>
              let ls := orderSuccess r1
              let ss := orderSuccess r2
              if ls && ss then
                let st' := { st with scale_in_executed := st.scale_in_executed + 1 }
                if st'.scale_in_executed ≥ cfg.scale_in_legs then
                  ⟨st', [o1, o2], trade_size, some ExitReason.scaleInCompleted⟩
                else
                  ⟨st', [o1, o2], trade_size, none⟩
              else if ls && !ss then
                ⟨st, [o1, o2], trade_size, some ExitReason.scaleInHaltLongOnly⟩
              else if !ls && ss then
                ⟨st, [o1, o2], trade_size, some ExitReason.scaleInHaltShortOnly⟩
              else
                ⟨st, [o1, o2], 0, some ExitReason.scaleInHaltBothFailed⟩

/-- Lines 353-404: the body of a fired single-shot hedge. -/
def tradeSingleShot (cfg : Config) (st : BotState) (inp : CycleInput)
    (lp sp : ℚ) : StepOut :=
  let trade_size := singleTradeSize cfg
  let long_qty := longQty trade_size lp
  let short_qty := shortQty trade_size sp
  if belowMin trade_size lp sp then
    -- lines 364-367: minimum-size skip, sleep and re-poll (no progress)
    ⟨st, [], 0, none⟩
  else
    let o1 : Order := ⟨cfg.symbol_long, Side.Buy, long_qty⟩
    let o2 : Order := ⟨cfg.symbol_short, Side.Sell, short_qty⟩
    match place_market_order inp.longPost with
    | Except.error _ => ⟨st, [o1], 0, none⟩
    | Except.ok r1 =>
        match place_market_order inp.shortPost with
        | Except.error _ =>
            ⟨st, [o1, o2], if orderSuccess r1 then trade_size else 0, none⟩
        | Except.ok r2 =>
            let ls := orderSuccess r1
            let ss := orderSuccess r2
            if ls && ss then
              ⟨st, [o1, o2], trade_size, some ExitReason.completed⟩
            else if ls && !ss then
              ⟨st, [o1, o2], trade_size, some ExitReason.unhedgedLong⟩
            else if !ls && ss then
              ⟨st, [o1, o2], trade_size, some ExitReason.unhedgedShort⟩
            else
              -- lines 397-404: both failed, continue monitoring
              ⟨st, [o1, o2], 0, none⟩

/-- Lines 248-406: the part of an iteration after the in-loop baselining,
with the (possibly just-baselined) state `st`. -/
def monitorBody (cfg : Config) (st : BotState) (inp : CycleInput)
    (lp sp : ℚ) : StepOut :=
  if sp = 0 then ⟨st, [], 0, none⟩          -- line 250 (unreachable here)
  else
    let ratio := lp / sp
    if st.trigger_ratio = none then ⟨st, [], 0, none⟩  -- line 278
    else if cfg.enable_scale_in then
      if scaleInFires cfg st ratio then tradeScaleIn cfg st inp lp sp
      else ⟨st, [], 0, none⟩                 -- fall through to line 406
    else if singleShotFires st ratio then tradeSingleShot cfg st inp lp sp
    else ⟨st, [], 0, none⟩

/-- Lines 223-415: one iteration of the main `while True:` loop. -/
def step (cfg : Config) (st : BotState) (inp : CycleInput) : StepOut :=
  if !(optTruthy inp.long_price) || !(optTruthy inp.short_price) then
    ⟨st, [], 0, none⟩                        -- lines 228-231
  else
    let lp := inp.long_price.getD 0
    let sp := inp.short_price.getD 0
    if st.initial_ratio = none then
      if sp = 0 then ⟨st, [], 0, none⟩       -- line 236 (unreachable here)
      else
        let ir := lp / sp
        let st1 := { st with
          initial_ratio := some ir
          trigger_ratio := some (ir * (1 - cfg.trigger_drop_pct / 100)) }
        monitorBody cfg st1 inp lp sp
    else monitorBody cfg st inp lp sp

/-- The accumulated outcome of running the loop over a list of cycles. -/
structure RunOut where
  state : BotState
  orders : List Order
  spent : ℚ
  exit : Option ExitReason
deriving DecidableEq, Repr

/-- The loop driver: iterate `step` over the cycle inputs, stopping at
the first iteration that executes `break`. -/
def run (cfg : Config) (st : BotState) : List CycleInput → RunOut
  | [] => ⟨st, [], 0, none⟩
  | inp :: rest =>
      let out := step cfg st inp
      match out.exit with
      | some r => ⟨out.state, out.orders, out.spent, some r⟩
      | none =>
          let tail := run cfg out.state rest
          ⟨tail.state, out.orders ++ tail.orders, out.spent + tail.spent, tail.exit⟩

/-! ## Concrete fixtures used by witnesses and counterexamples -/

/-- A venue interaction that decodes to `retCode = 0` (success). -/
def okOrder : Except String RawResp := Except.ok ⟨some ⟨some 0, none⟩⟩

/-- A venue interaction that decodes to a structured rejection. -/
def rejOrder : Except String RawResp :=
  Except.ok ⟨some ⟨some 10001, some ("insufficient balance")⟩⟩

/-- Single-shot configuration: 10% trigger, 1500 USD, no scale-in. -/
def cfgSingle : Config := ⟨"LONG", "SHORT", 10, 1500, 1500, false, 3, 2⟩

/-- Scale-in configuration: 10% base trigger, 2% step, 3 legs, 1500 USD. -/
def cfgScale3 : Config := ⟨"LONG", "SHORT", 10, 1500, 1500, true, 3, 2⟩

/-- Single-shot configuration with a 0.40 USD position (below the 1 USD
minimum at the fixture prices). -/
def cfgTiny : Config := ⟨"LONG", "SHORT", 10, 2/5, 2/5, false, 3, 2⟩

/-- One-leg scale-in configuration with a 100 USD position and cap. -/
def cfgOneLeg : Config := ⟨"LONG", "SHORT", 10, 100, 100, true, 1, 0⟩

/-- States baselined at startup from prices 200 / 100 (ratio 2). -/
def stSingle : BotState := initState cfgSingle (some 200) (some 100)

def stScale3 : BotState := initState cfgScale3 (some 200) (some 100)

def stTiny : BotState := initState cfgTiny (some 200) (some 100)

def stOneLeg : BotState := initState cfgOneLeg (some 200) (some 100)

/-- State after a startup in which every initial price fetch failed: the
retry loop leaves the dummy prices `0, 1` and no baseline. -/
def stUnbase : BotState := initState cfgScale3 (some 0) (some 1)

/-! ## Basic lemmas about the loop driver -/

/-- An iteration that executes `break` ends the run: nothing after it happens. -/
theorem run_cons_exit (cfg : Config) (st : BotState) (inp : CycleInput)
    (rest : List CycleInput) (r : ExitReason)
    (h : (step cfg st inp).exit = some r) :
    run cfg st (inp :: rest) =
      ⟨(step cfg st inp).state, (step cfg st inp).orders,
        (step cfg st inp).spent, some r⟩ := by
  simp only [run]
  rw [h]

/-- The single-shot trade body never modifies the loop state at all. -/
theorem tradeSingleShot_state (cfg : Config) (st : BotState)
    (inp : CycleInput) (lp sp : ℚ) :
    (tradeSingleShot cfg st inp lp sp).state = st := by
  simp only [tradeSingleShot]
  by_cases hbm : belowMin (singleTradeSize cfg) lp sp
  · simp only [if_pos hbm]
  · simp only [if_neg hbm]
    cases hp1 : place_market_order inp.longPost with
    | error e => rfl
    | ok r1 =>
      cases hp2 : place_market_order inp.shortPost with
      | error e => rfl
      | ok r2 =>
        cases hls : orderSuccess r1 <;> cases hss : orderSuccess r2 <;>
          simp [hls, hss]

/-- The scale-in trade body only ever reassigns `scale_in_executed`:
baseline, trigger ratio and ladder are untouched. -/
theorem tradeScaleIn_ratio_fields (cfg : Config) (st : BotState)
    (inp : CycleInput) (lp sp : ℚ) :
    (tradeScaleIn cfg st inp lp sp).state.initial_ratio = st.initial_ratio ∧
    (tradeScaleIn cfg st inp lp sp).state.trigger_ratio = st.trigger_ratio ∧
    (tradeScaleIn cfg st inp lp sp).state.scale_in_trigger_ratios
      = st.scale_in_trigger_ratios := by
  simp only [tradeScaleIn]
  by_cases ht : legTradeSize cfg st.scale_in_executed ≤ 0
  · simp only [if_pos ht]
    refine ⟨?_, ?_, ?_⟩ <;> trivial
  · simp only [if_neg ht]
    by_cases hbm : belowMin (legTradeSize cfg st.scale_in_executed) lp sp
    · simp only [if_pos hbm]
      by_cases hge : st.scale_in_executed + 1 ≥ cfg.scale_in_legs <;>
        simp [hge]
    · simp only [if_neg hbm]
      cases hp1 : place_market_order inp.longPost with
      | error e => refine ⟨?_, ?_, ?_⟩ <;> trivial
      | ok r1 =>
        cases hp2 : place_market_order inp.shortPost with
        | error e => refine ⟨?_, ?_, ?_⟩ <;> trivial
        | ok r2 =>
          cases hls : orderSuccess r1 <;> cases hss : orderSuccess r2 <;>
            by_cases hge : st.scale_in_executed + 1 ≥ cfg.scale_in_legs <;>
            simp [hls, hss, hge]

/-- The monitoring body never touches the baseline, the single trigger
ratio or the ladder: only `scale_in_executed` is ever reassigned. -/
theorem monitorBody_ratio_fields (cfg : Config) (st : BotState)
    (inp : CycleInput) (lp sp : ℚ) :
    (monitorBody cfg st inp lp sp).state.initial_ratio = st.initial_ratio ∧
    (monitorBody cfg st inp lp sp).state.trigger_ratio = st.trigger_ratio ∧
    (monitorBody cfg st inp lp sp).state.scale_in_trigger_ratios
      = st.scale_in_trigger_ratios := by
  simp only [monitorBody]
  by_cases h0 : sp = 0
  · simp only [if_pos h0]
    refine ⟨?_, ?_, ?_⟩ <;> trivial
  · simp only [if_neg h0]
    by_cases htr : st.trigger_ratio = none
    · simp only [if_pos htr]
      refine ⟨?_, ?_, ?_⟩ <;> trivial
    · simp only [if_neg htr]
      by_cases hen : cfg.enable_scale_in = true
      · simp only [if_pos hen]
        by_cases hf : scaleInFires cfg st (lp / sp)
        · simp only [if_pos hf]
          exact tradeScaleIn_ratio_fields cfg st inp lp sp
        · simp only [if_neg hf]
          refine ⟨?_, ?_, ?_⟩ <;> trivial
      · simp only [if_neg hen]
        by_cases hf : singleShotFires st (lp / sp)
        · simp only [if_pos hf]
          rw [tradeSingleShot_state cfg st inp lp sp]
          refine ⟨?_, ?_, ?_⟩ <;> trivial
        · simp only [if_neg hf]
          refine ⟨?_, ?_, ?_⟩ <;> trivial

/-- A step taken from a baselined state preserves the baseline, the
trigger ratio and the ladder. -/
theorem step_ratio_fields (cfg : Config) (st : BotState) (inp : CycleInput)
    (hb : st.initial_ratio ≠ none) :
    (step cfg st inp).state.initial_ratio = st.initial_ratio ∧
    (step cfg st inp).state.trigger_ratio = st.trigger_ratio ∧
    (step cfg st inp).state.scale_in_trigger_ratios
      = st.scale_in_trigger_ratios := by
  simp only [step]
  by_cases hp : (!(optTruthy inp.long_price) || !(optTruthy inp.short_price)) = true
  · simp only [if_pos hp]
    refine ⟨?_, ?_, ?_⟩ <;> trivial
  · simp only [if_neg hp, if_neg hb]
    exact monitorBody_ratio_fields cfg st inp _ _

/-- C9: Once the Ratio Tracker is Baselined, the baseline ratio and the
trigger ladder are never mutated again: over any sequence of further
cycles, however extreme the fetched prices and order outcomes, the
baseline, the single trigger ratio and the ladder entries are unchanged. -/
theorem C9_baseline_immutable (cfg : Config) (st : BotState) (b : ℚ)
    (hb : st.initial_ratio = some b) (inputs : List CycleInput) :
    (run cfg st inputs).state.initial_ratio = some b ∧
    (run cfg st inputs).state.trigger_ratio = st.trigger_ratio ∧
    (run cfg st inputs).state.scale_in_trigger_ratios
      = st.scale_in_trigger_ratios := by
  induction inputs generalizing st with
  | nil => exact ⟨hb, rfl, rfl⟩
  | cons inp rest ih =>
    have hstep := step_ratio_fields cfg st inp (by rw [hb]; exact Option.some_ne_none b)
    unfold run
    cases hexit : (step cfg st inp).exit with
    | some r =>
      simp only [hexit]
      exact ⟨hstep.1.trans hb, hstep.2.1, hstep.2.2⟩
    | none =>
      simp only [hexit]
      have ih' := ih (step cfg st inp).state (hstep.1.trans hb)
      exact ⟨ih'.1, ih'.2.1.trans hstep.2.1, ih'.2.2.trans hstep.2.2⟩

/-- Concrete instantiation of `C9_baseline_immutable`: a baselined state
ridden through a cycle with extreme prices keeps baseline and ladder. -/
theorem C9_baseline_immutable_witness :
    (run ⟨"L", "S", 10, 1500, 1500, true, 3, 2⟩
        ⟨some 2, some (9/5), 0, [9/5, 44/25, 43/25]⟩
        [⟨some 1000000, some (1/1000000), Except.ok ⟨some ⟨some 0, none⟩⟩,
          Except.ok ⟨some ⟨some 0, none⟩⟩⟩]).state.initial_ratio = some 2 ∧
    (run ⟨"L", "S", 10, 1500, 1500, true, 3, 2⟩
        ⟨some 2, some (9/5), 0, [9/5, 44/25, 43/25]⟩
        [⟨some 1000000, some (1/1000000), Except.ok ⟨some ⟨some 0, none⟩⟩,
          Except.ok ⟨some ⟨some 0, none⟩⟩⟩]).state.trigger_ratio
      = BotState.trigger_ratio ⟨some 2, some (9/5), 0, [9/5, 44/25, 43/25]⟩ ∧
    (run ⟨"L", "S", 10, 1500, 1500, true, 3, 2⟩
        ⟨some 2, some (9/5), 0, [9/5, 44/25, 43/25]⟩
        [⟨some 1000000, some (1/1000000), Except.ok ⟨some ⟨some 0, none⟩⟩,
          Except.ok ⟨some ⟨some 0, none⟩⟩⟩]).state.scale_in_trigger_ratios
      = BotState.scale_in_trigger_ratios ⟨some 2, some (9/5), 0, [9/5, 44/25, 43/25]⟩ :=
  C9_baseline_immutable _ _ 2 rfl _

/-- C10: On any poll cycle where the short price is exactly 0 (whatever
the tracker state), the engine does nothing: no ratio computation or
trigger evaluation is reached, no order is placed, the state (including
any baseline) is unchanged, and the loop continues to the next cycle. -/
theorem C10_zero_short_price_safe (cfg : Config) (st : BotState)
    (lp : Option ℚ) (p1 p2 : Except String RawResp) :
    step cfg st ⟨lp, some 0, p1, p2⟩ = ⟨st, [], 0, none⟩ := by
  unfold step
  simp [optTruthy]

/-! ## The trigger ladder -/

/-- With a truthy baseline the ladder is the map of the drop formula
over the leg indices. -/
theorem buildLadder_eq_map (cfg : Config) (b : ℚ) (hen : cfg.enable_scale_in = true)
    (hb : b ≠ 0) :
    buildLadder cfg (some b) = (List.range cfg.scale_in_legs).map
      (fun (i : ℕ) => b * (1 - (cfg.trigger_drop_pct + (i : ℚ) * cfg.scale_in_drop_step) / 100)) := by
  unfold buildLadder
  rw [hen]
  have htr : optTruthy (some b) = true := by
    simp [optTruthy, hb]
  have hfun : (fun i : ℕ => if optTruthy (some b) then
        some ((some b).getD 0 *
          (1 - (cfg.trigger_drop_pct + (i : ℚ) * cfg.scale_in_drop_step) / 100))
      else none)
      = fun i : ℕ => some (b *
          (1 - (cfg.trigger_drop_pct + (i : ℚ) * cfg.scale_in_drop_step) / 100)) := by
    funext i
    rw [if_pos htr]
    rfl
  show List.filterMap _ _ = _
  rw [hfun]
  have hgen : ∀ (g : ℕ → ℚ) (l : List ℕ),
      l.filterMap (fun i => some (g i)) = l.map g := by
    intro g l
    induction l with
    | nil => rfl
    | cons a t ih => simp [List.filterMap_cons, ih]
  exact hgen _ _

/-- C7: with scale-in enabled, N legs, base drop B, step S ≥ 0 and a
positive baseline b, the ladder has one entry per leg, entry i equals
`b * (1 - (B + i*S)/100)`, entries are non-increasing in the leg index
(entry j ≤ entry i whenever i ≤ j < N), and the drop of leg 0 is exactly the
base trigger percentage. -/
theorem C7_ladder_formula (cfg : Config) (b : ℚ) (i j : ℕ)
    (hen : cfg.enable_scale_in = true) (hb : 0 < b)
    (hS : 0 ≤ cfg.scale_in_drop_step) (hij : i ≤ j)
    (hj : j < cfg.scale_in_legs) :
    (buildLadder cfg (some b)).length = cfg.scale_in_legs ∧
    (buildLadder cfg (some b)).getD i 0 =
      b * (1 - (cfg.trigger_drop_pct + (i : ℚ) * cfg.scale_in_drop_step) / 100) ∧
    (buildLadder cfg (some b)).getD j 0 ≤ (buildLadder cfg (some b)).getD i 0 ∧
    (0 < cfg.scale_in_legs →
      (buildLadder cfg (some b)).getD 0 0 = b * (1 - cfg.trigger_drop_pct / 100)) := by
  have hmap := buildLadder_eq_map cfg b hen (ne_of_gt hb)
  have hlen : (buildLadder cfg (some b)).length = cfg.scale_in_legs := by
    rw [hmap, List.length_map, List.length_range]
  have hget : ∀ k, k < cfg.scale_in_legs →
      (buildLadder cfg (some b)).getD k 0 =
        b * (1 - (cfg.trigger_drop_pct + (k : ℚ) * cfg.scale_in_drop_step) / 100) := by
    intro k hk
    have hk' : k < ((List.range cfg.scale_in_legs).map
        (fun (i : ℕ) => b * (1 - (cfg.trigger_drop_pct + (i : ℚ) * cfg.scale_in_drop_step) / 100))).length := by
      rw [List.length_map, List.length_range]
      exact hk
    rw [hmap, List.getD_eq_getElem _ 0 hk', List.getElem_map, List.getElem_range]
  have hi : i < cfg.scale_in_legs := lt_of_le_of_lt hij hj
  refine ⟨hlen, hget i hi, ?_, ?_⟩
  · rw [hget i hi, hget j hj]
    have hmono : (cfg.trigger_drop_pct + (i : ℚ) * cfg.scale_in_drop_step)
        ≤ cfg.trigger_drop_pct + (j : ℚ) * cfg.scale_in_drop_step := by
      have hc : (i : ℚ) ≤ (j : ℚ) := by exact_mod_cast hij
      nlinarith
    have h2 : (1 - (cfg.trigger_drop_pct + (j : ℚ) * cfg.scale_in_drop_step) / 100)
        ≤ 1 - (cfg.trigger_drop_pct + (i : ℚ) * cfg.scale_in_drop_step) / 100 := by
      linarith
    exact mul_le_mul_of_nonneg_left h2 (le_of_lt hb)
  · intro hN
    rw [hget 0 hN]
    norm_num

/-- Concrete instantiation of `C7_ladder_formula`: baseline 2, base 10%,
step 2%, three legs, comparing legs 0 and 2. -/
theorem C7_ladder_formula_witness :
    (buildLadder ⟨"L", "S", 10, 1500, 1500, true, 3, 2⟩ (some 2)).length = 3 ∧
    (buildLadder ⟨"L", "S", 10, 1500, 1500, true, 3, 2⟩ (some 2)).getD 0 0 =
      2 * (1 - (10 + (0 : ℚ) * 2) / 100) ∧
    (buildLadder ⟨"L", "S", 10, 1500, 1500, true, 3, 2⟩ (some 2)).getD 2 0 ≤
      (buildLadder ⟨"L", "S", 10, 1500, 1500, true, 3, 2⟩ (some 2)).getD 0 0 ∧
    (0 < 3 →
      (buildLadder ⟨"L", "S", 10, 1500, 1500, true, 3, 2⟩ (some 2)).getD 0 0 =
        2 * (1 - 10 / 100)) :=
  C7_ladder_formula ⟨"L", "S", 10, 1500, 1500, true, 3, 2⟩ 2 0 2 rfl
    (by norm_num) (by norm_num) (by norm_num) (by norm_num)

/-! ## Reduction of a cycle to its trade body -/

/-- With both prices present and nonzero and a baseline already set, a
cycle is exactly the monitoring body. -/
theorem step_to_monitor (cfg : Config) (st : BotState) (inp : CycleInput)
    (lp sp : ℚ) (hlp : inp.long_price = some lp) (hl0 : lp ≠ 0)
    (hsp : inp.short_price = some sp) (hs0 : sp ≠ 0)
    (hb : st.initial_ratio ≠ none) :
    step cfg st inp = monitorBody cfg st inp lp sp := by
  have h1 : optTruthy (some lp) = true := by simp [optTruthy, hl0]
  have h2 : optTruthy (some sp) = true := by simp [optTruthy, hs0]
  simp only [step, hlp, hsp, Option.getD_some, h1, h2, Bool.not_true,
    Bool.or_self, Bool.false_eq_true, if_false, if_neg hb]

/-- With scale-in enabled and the scale-in condition satisfied, the
monitoring body runs the scale-in trade body. -/
theorem monitor_to_scaleIn (cfg : Config) (st : BotState) (inp : CycleInput)
    (lp sp : ℚ) (hs0 : sp ≠ 0) (htr : st.trigger_ratio ≠ none)
    (hen : cfg.enable_scale_in = true) (hf : scaleInFires cfg st (lp / sp)) :
    monitorBody cfg st inp lp sp = tradeScaleIn cfg st inp lp sp := by
  simp only [monitorBody, if_neg hs0, if_neg htr, if_pos hen, if_pos hf]

/-- With scale-in disabled and the single-shot condition satisfied, the
monitoring body runs the single-shot trade body. -/
theorem monitor_to_single (cfg : Config) (st : BotState) (inp : CycleInput)
    (lp sp : ℚ) (hs0 : sp ≠ 0)
    (hen : cfg.enable_scale_in = false) (hf : singleShotFires st (lp / sp)) :
    monitorBody cfg st inp lp sp = tradeSingleShot cfg st inp lp sp := by
  have hen' : ¬ (cfg.enable_scale_in = true) := by simp [hen]
  simp only [monitorBody, if_neg hs0, if_neg hf.1, if_neg hen', if_pos hf]

/-! ## Branch evaluations of the trade bodies -/

/-- Single shot, minimum-size skip: no order, no progress, loop continues. -/
theorem tradeSingleShot_belowMin (cfg : Config) (st : BotState)
    (inp : CycleInput) (lp sp : ℚ)
    (hbm : belowMin (singleTradeSize cfg) lp sp) :
    tradeSingleShot cfg st inp lp sp = ⟨st, [], 0, none⟩ := by
  simp only [tradeSingleShot, if_pos hbm]

/-- Single shot, both orders return a structured failure: no exit, state
unchanged, nothing committed. -/
theorem tradeSingleShot_bothFail (cfg : Config) (st : BotState)
    (inp : CycleInput) (lp sp : ℚ) (r1 r2 : OrderResp)
    (hbm : ¬ belowMin (singleTradeSize cfg) lp sp)
    (h1 : place_market_order inp.longPost = Except.ok r1)
    (h2 : place_market_order inp.shortPost = Except.ok r2)
    (hf1 : orderSuccess r1 = false) (hf2 : orderSuccess r2 = false) :
    tradeSingleShot cfg st inp lp sp =
      ⟨st, [⟨cfg.symbol_long, Side.Buy, longQty (singleTradeSize cfg) lp⟩,
            ⟨cfg.symbol_short, Side.Sell, shortQty (singleTradeSize cfg) sp⟩],
        0, none⟩ := by
  simp only [tradeSingleShot, if_neg hbm, h1, h2, hf1, hf2]
  simp

/-- Single shot, long succeeded and short returned a structured failure:
the engine breaks with the unhedged-long report. -/
theorem tradeSingleShot_longOnly (cfg : Config) (st : BotState)
    (inp : CycleInput) (lp sp : ℚ) (r1 r2 : OrderResp)
    (hbm : ¬ belowMin (singleTradeSize cfg) lp sp)
    (h1 : place_market_order inp.longPost = Except.ok r1)
    (h2 : place_market_order inp.shortPost = Except.ok r2)
    (hs1 : orderSuccess r1 = true) (hf2 : orderSuccess r2 = false) :
    tradeSingleShot cfg st inp lp sp =
      ⟨st, [⟨cfg.symbol_long, Side.Buy, longQty (singleTradeSize cfg) lp⟩,
            ⟨cfg.symbol_short, Side.Sell, shortQty (singleTradeSize cfg) sp⟩],
        singleTradeSize cfg, some ExitReason.unhedgedLong⟩ := by
  simp only [tradeSingleShot, if_neg hbm, h1, h2, hs1, hf2]
  simp

/-- Single shot, short succeeded and long returned a structured failure:
the engine breaks with the unhedged-short report. -/
theorem tradeSingleShot_shortOnly (cfg : Config) (st : BotState)
    (inp : CycleInput) (lp sp : ℚ) (r1 r2 : OrderResp)
    (hbm : ¬ belowMin (singleTradeSize cfg) lp sp)
    (h1 : place_market_order inp.longPost = Except.ok r1)
    (h2 : place_market_order inp.shortPost = Except.ok r2)
    (hf1 : orderSuccess r1 = false) (hs2 : orderSuccess r2 = true) :
    tradeSingleShot cfg st inp lp sp =
      ⟨st, [⟨cfg.symbol_long, Side.Buy, longQty (singleTradeSize cfg) lp⟩,
            ⟨cfg.symbol_short, Side.Sell, shortQty (singleTradeSize cfg) sp⟩],
        singleTradeSize cfg, some ExitReason.unhedgedShort⟩ := by
  simp only [tradeSingleShot, if_neg hbm, h1, h2, hf1, hs2]
  simp

/-- Single shot: an exception raised during the first order call aborts
the attempt after one Order Gateway call; the loop-level handler catches
it and the loop continues with unchanged state. -/
theorem tradeSingleShot_longRaises (cfg : Config) (st : BotState)
    (inp : CycleInput) (lp sp : ℚ) (e : String)
    (hbm : ¬ belowMin (singleTradeSize cfg) lp sp)
    (h1 : place_market_order inp.longPost = Except.error e) :
    tradeSingleShot cfg st inp lp sp =
      ⟨st, [⟨cfg.symbol_long, Side.Buy, longQty (singleTradeSize cfg) lp⟩],
        0, none⟩ := by
  simp only [tradeSingleShot, if_neg hbm, h1]

/-- Scale-in leg: when no position capacity remains, the leg is skipped
with no order and progress jumps to the terminal count. -/
theorem tradeScaleIn_capReached (cfg : Config) (st : BotState)
    (inp : CycleInput) (lp sp : ℚ)
    (ht : legTradeSize cfg st.scale_in_executed ≤ 0) :
    tradeScaleIn cfg st inp lp sp =
      ⟨{ st with scale_in_executed := cfg.scale_in_legs }, [], 0, none⟩ := by
  simp only [tradeScaleIn, if_pos ht]

/-- Scale-in leg, minimum-size skip on the last leg: progress advances
and the engine stops in the distinct all-legs-skipped condition. -/
theorem tradeScaleIn_belowMin_last (cfg : Config) (st : BotState)
    (inp : CycleInput) (lp sp : ℚ)
    (ht : ¬ legTradeSize cfg st.scale_in_executed ≤ 0)
    (hbm : belowMin (legTradeSize cfg st.scale_in_executed) lp sp)
    (hge : st.scale_in_executed + 1 ≥ cfg.scale_in_legs) :
    tradeScaleIn cfg st inp lp sp =
      ⟨{ st with scale_in_executed := st.scale_in_executed + 1 }, [], 0,
        some ExitReason.allLegsSkipped⟩ := by
  simp only [tradeScaleIn, if_neg ht, if_pos hbm, if_pos hge]

/-- Scale-in leg, minimum-size skip with legs remaining: progress
advances and monitoring continues. -/
theorem tradeScaleIn_belowMin_more (cfg : Config) (st : BotState)
    (inp : CycleInput) (lp sp : ℚ)
    (ht : ¬ legTradeSize cfg st.scale_in_executed ≤ 0)
    (hbm : belowMin (legTradeSize cfg st.scale_in_executed) lp sp)
    (hge : ¬ st.scale_in_executed + 1 ≥ cfg.scale_in_legs) :
    tradeScaleIn cfg st inp lp sp =
      ⟨{ st with scale_in_executed := st.scale_in_executed + 1 }, [], 0, none⟩ := by
  simp only [tradeScaleIn, if_neg ht, if_pos hbm, if_neg hge]

/-- Scale-in leg, both orders return a structured failure: the engine
breaks out of the loop (it does not retry). -/
theorem tradeScaleIn_bothFail (cfg : Config) (st : BotState)
    (inp : CycleInput) (lp sp : ℚ) (r1 r2 : OrderResp)
    (ht : ¬ legTradeSize cfg st.scale_in_executed ≤ 0)
    (hbm : ¬ belowMin (legTradeSize cfg st.scale_in_executed) lp sp)
    (h1 : place_market_order inp.longPost = Except.ok r1)
    (h2 : place_market_order inp.shortPost = Except.ok r2)
    (hf1 : orderSuccess r1 = false) (hf2 : orderSuccess r2 = false) :
    tradeScaleIn cfg st inp lp sp =
      ⟨st, [⟨cfg.symbol_long, Side.Buy,
              longQty (legTradeSize cfg st.scale_in_executed) lp⟩,
            ⟨cfg.symbol_short, Side.Sell,
              shortQty (legTradeSize cfg st.scale_in_executed) sp⟩],
        0, some ExitReason.scaleInHaltBothFailed⟩ := by
  simp only [tradeScaleIn, if_neg ht, if_neg hbm, h1, h2, hf1, hf2]
  simp

/-- Scale-in leg, long succeeded and short returned a structured
failure: the engine breaks with the long-only report. -/
theorem tradeScaleIn_longOnly (cfg : Config) (st : BotState)
    (inp : CycleInput) (lp sp : ℚ) (r1 r2 : OrderResp)
    (ht : ¬ legTradeSize cfg st.scale_in_executed ≤ 0)
    (hbm : ¬ belowMin (legTradeSize cfg st.scale_in_executed) lp sp)
    (h1 : place_market_order inp.longPost = Except.ok r1)
    (h2 : place_market_order inp.shortPost = Except.ok r2)
    (hs1 : orderSuccess r1 = true) (hf2 : orderSuccess r2 = false) :
    tradeScaleIn cfg st inp lp sp =
      ⟨st, [⟨cfg.symbol_long, Side.Buy,
              longQty (legTradeSize cfg st.scale_in_executed) lp⟩,
            ⟨cfg.symbol_short, Side.Sell,
              shortQty (legTradeSize cfg st.scale_in_executed) sp⟩],
        legTradeSize cfg st.scale_in_executed,
        some ExitReason.scaleInHaltLongOnly⟩ := by
  simp only [tradeScaleIn, if_neg ht, if_neg hbm, h1, h2, hs1, hf2]
  simp

/-- Scale-in leg, short succeeded and long returned a structured
failure: the engine breaks with the short-only report. -/
theorem tradeScaleIn_shortOnly (cfg : Config) (st : BotState)
    (inp : CycleInput) (lp sp : ℚ) (r1 r2 : OrderResp)
    (ht : ¬ legTradeSize cfg st.scale_in_executed ≤ 0)
    (hbm : ¬ belowMin (legTradeSize cfg st.scale_in_executed) lp sp)
    (h1 : place_market_order inp.longPost = Except.ok r1)
    (h2 : place_market_order inp.shortPost = Except.ok r2)
    (hf1 : orderSuccess r1 = false) (hs2 : orderSuccess r2 = true) :
    tradeScaleIn cfg st inp lp sp =
      ⟨st, [⟨cfg.symbol_long, Side.Buy,
              longQty (legTradeSize cfg st.scale_in_executed) lp⟩,
            ⟨cfg.symbol_short, Side.Sell,
              shortQty (legTradeSize cfg st.scale_in_executed) sp⟩],
        legTradeSize cfg st.scale_in_executed,
        some ExitReason.scaleInHaltShortOnly⟩ := by
  simp only [tradeScaleIn, if_neg ht, if_neg hbm, h1, h2, hf1, hs2]
  simp

/-- The fixture `stSingle` evaluated: ratio 2, trigger 1.8, empty ladder. -/
theorem stSingle_eq : stSingle = ⟨some 2, some (9/5), 0, []⟩ := by
  have h3 : List.range 3 = [0, 1, 2] := by decide
  norm_num [stSingle, initState, cfgSingle, buildLadder, optTruthy, h3,
    List.filterMap_cons]

/-- The fixture `stScale3` evaluated: ratio 2, trigger 1.8, ladder 1.80 / 1.76 / 1.72. -/
theorem stScale3_eq : stScale3 = ⟨some 2, some (9/5), 0, [9/5, 44/25, 43/25]⟩ := by
  have h3 : List.range 3 = [0, 1, 2] := by decide
  norm_num [stScale3, initState, cfgScale3, buildLadder, optTruthy, h3,
    List.filterMap_cons]

/-- The fixture `stTiny` evaluated. -/
theorem stTiny_eq : stTiny = ⟨some 2, some (9/5), 0, []⟩ := by
  have h3 : List.range 3 = [0, 1, 2] := by decide
  norm_num [stTiny, initState, cfgTiny, buildLadder, optTruthy, h3,
    List.filterMap_cons]

/-- The fixture `stOneLeg` evaluated. -/
theorem stOneLeg_eq : stOneLeg = ⟨some 2, some (9/5), 0, [9/5]⟩ := by
  have h1 : List.range 1 = [0] := by decide
  norm_num [stOneLeg, initState, cfgOneLeg, buildLadder, optTruthy, h1,
    List.filterMap_cons]

/-- The fixture `stUnbase` evaluated: the dummy startup prices leave no baseline,
no trigger ratio and an empty ladder. -/
theorem stUnbase_eq : stUnbase = ⟨none, none, 0, []⟩ := by
  have h3 : List.range 3 = [0, 1, 2] := by decide
  norm_num [stUnbase, initState, cfgScale3, buildLadder, optTruthy, h3,
    List.filterMap_cons]

/-! ## The claims -/

/-- C6: in Monitoring with a baseline set, the scale-in condition for the
next un-attempted leg holds iff the current ratio is at most the ladder
entry of that leg, and the single-shot condition holds iff the ratio is at
most the single trigger ratio; concretely, with baseline 2.00 and
trigger percentage 10 and no scale-in, the trigger ratio is 1.80 and a
poll at 170/100 (ratio 1.70) fires and submits both legs. -/
theorem C6_trigger_iff (cfg : Config) (st : BotState) (ratio t : ℚ)
    (hlegs : st.scale_in_executed < cfg.scale_in_legs)
    (hlen : st.scale_in_executed < st.scale_in_trigger_ratios.length)
    (ht : st.trigger_ratio = some t) :
    (scaleInFires cfg st ratio ↔
      ratio ≤ st.scale_in_trigger_ratios.getD st.scale_in_executed 0) ∧
    (singleShotFires st ratio ↔ ratio ≤ t) ∧
    stSingle.initial_ratio = some 2 ∧
    stSingle.trigger_ratio = some (9/5) ∧
    step cfgSingle stSingle ⟨some 170, some 100, okOrder, okOrder⟩ =
      ⟨stSingle, [⟨"LONG", Side.Buy, 441/50⟩, ⟨"SHORT", Side.Sell, 15⟩],
        1500, some ExitReason.completed⟩ := by
  refine ⟨?_, ?_, ?_, ?_, ?_⟩
  · unfold scaleInFires
    exact ⟨fun h => h.2.2, fun h => ⟨hlegs, hlen, h⟩⟩
  · unfold singleShotFires
    rw [ht]
    simp
  · norm_num [stSingle_eq]
  · norm_num [stSingle_eq]
  · norm_num [step, monitorBody, tradeScaleIn, tradeSingleShot, singleShotFires,
    scaleInFires, belowMin, longQty, shortQty, singleTradeSize, legTradeSize,
    Config.scale_in_leg_size, pyRound, pyRoundInt, optTruthy, place_market_order,
    orderSuccess, initState, buildLadder, run,
      stSingle_eq, cfgSingle, okOrder, List.getD, Int.fract]
    simp

/-- Concrete instantiation of `C6_trigger_iff` on the scale-in fixture
state (leg 0 of 3, ladder entry 1.80, ratio 1.70). -/
theorem C6_trigger_iff_witness :
    (scaleInFires cfgScale3 stScale3 (17/10) ↔
      (17/10 : ℚ) ≤ stScale3.scale_in_trigger_ratios.getD stScale3.scale_in_executed 0) ∧
    (singleShotFires stScale3 (17/10) ↔ (17/10 : ℚ) ≤ 9/5) ∧
    stSingle.initial_ratio = some 2 ∧
    stSingle.trigger_ratio = some (9/5) ∧
    step cfgSingle stSingle ⟨some 170, some 100, okOrder, okOrder⟩ =
      ⟨stSingle, [⟨"LONG", Side.Buy, 441/50⟩, ⟨"SHORT", Side.Sell, 15⟩],
        1500, some ExitReason.completed⟩ :=
  C6_trigger_iff cfgScale3 stScale3 (17/10) (9/5)
    (by norm_num [stScale3_eq, cfgScale3])
    (by norm_num [stScale3_eq])
    (by norm_num [stScale3_eq])

/-- C1 counterexample: a scale-in hedge attempt in which both orders
return structured failures does NOT leave the engine monitoring — the
code breaks out of the loop, so the same leg is never re-evaluated. -/
theorem C1_counterexample :
    (step cfgScale3 stScale3 ⟨some 170, some 100, rejOrder, rejOrder⟩).exit
      = some ExitReason.scaleInHaltBothFailed := by
  norm_num [step, monitorBody, tradeScaleIn, tradeSingleShot, singleShotFires,
    scaleInFires, belowMin, longQty, shortQty, singleTradeSize, legTradeSize,
    Config.scale_in_leg_size, pyRound, pyRoundInt, optTruthy, place_market_order,
    orderSuccess, initState, buildLadder, run,
    stScale3_eq, cfgScale3, rejOrder, List.getD, Int.fract]
  simp

/-- C2: evaluation at the failing input.  With scale-in enabled and a
failed startup fetch, the first good poll cycle sets the baseline and
the single trigger ratio but leaves the trigger ladder empty, so a later
poll 50% below the baseline fires no leg and places no order. -/
theorem C2_bug_eval :
    stUnbase.initial_ratio = none ∧
    stUnbase.scale_in_trigger_ratios = [] ∧
    (step cfgScale3 stUnbase ⟨some 200, some 100, okOrder, okOrder⟩).state.initial_ratio
      = some 2 ∧
    (step cfgScale3 stUnbase ⟨some 200, some 100, okOrder, okOrder⟩).state.trigger_ratio
      = some (9/5) ∧
    (step cfgScale3 stUnbase ⟨some 200, some 100, okOrder, okOrder⟩).state.scale_in_trigger_ratios
      = [] ∧
    (step cfgScale3
        (step cfgScale3 stUnbase ⟨some 200, some 100, okOrder, okOrder⟩).state
        ⟨some 100, some 100, okOrder, okOrder⟩).orders = [] ∧
    (step cfgScale3
        (step cfgScale3 stUnbase ⟨some 200, some 100, okOrder, okOrder⟩).state
        ⟨some 100, some 100, okOrder, okOrder⟩).exit = none := by
  norm_num [step, monitorBody, tradeScaleIn, tradeSingleShot, singleShotFires,
    scaleInFires, belowMin, longQty, shortQty, singleTradeSize, legTradeSize,
    Config.scale_in_leg_size, pyRound, pyRoundInt, optTruthy, place_market_order,
    orderSuccess, initState, buildLadder, run,
    stUnbase_eq, cfgScale3, okOrder, List.getD, Int.fract]
  simp

/-- C3 counterexample: `place_market_order` propagates a transport error
and a decode error as a raised exception instead of returning a failure
outcome; and when the long order succeeds and the short call raises, the
iteration ends with no halt — the two outcomes are never jointly
evaluated even though an unhedged long now exists. -/
theorem C3_counterexample :
    place_market_order (Except.error ("ConnectionError"))
      = Except.error ("ConnectionError") ∧
    place_market_order (Except.ok ⟨none⟩) = Except.error ("JSONDecodeError") ∧
    step cfgSingle stSingle ⟨some 170, some 100, okOrder, Except.error ("ReadTimeout")⟩ =
      ⟨stSingle, [⟨"LONG", Side.Buy, 441/50⟩, ⟨"SHORT", Side.Sell, 15⟩],
        1500, none⟩ := by
  norm_num [step, monitorBody, tradeScaleIn, tradeSingleShot, singleShotFires,
    scaleInFires, belowMin, longQty, shortQty, singleTradeSize, legTradeSize,
    Config.scale_in_leg_size, pyRound, pyRoundInt, optTruthy, place_market_order,
    orderSuccess, initState, buildLadder, run,
    stSingle_eq, cfgSingle, okOrder, List.getD, Int.fract]
  simp

set_option maxRecDepth 8000 in
set_option maxHeartbeats 1000000 in
/-- C4 counterexample: in the single-shot path a triggered trade whose
notional is below the 1 USD minimum is skipped WITHOUT advancing any
progress and WITHOUT reaching a terminal condition: two consecutive
such cycles leave the engine monitoring with unchanged state. -/
theorem C4_counterexample :
    singleShotFires stTiny (17/10) ∧
    belowMin (singleTradeSize cfgTiny) 170 100 ∧
    run cfgTiny stTiny
        [⟨some 170, some 100, okOrder, okOrder⟩,
         ⟨some 170, some 100, okOrder, okOrder⟩] = ⟨stTiny, [], 0, none⟩ := by
  have hstep : step cfgTiny stTiny ⟨some 170, some 100, okOrder, okOrder⟩
      = ⟨stTiny, [], 0, none⟩ := by
    norm_num [step, monitorBody, tradeScaleIn, tradeSingleShot, singleShotFires,
      scaleInFires, belowMin, longQty, shortQty, singleTradeSize, legTradeSize,
      Config.scale_in_leg_size, pyRound, pyRoundInt, optTruthy, place_market_order,
      orderSuccess, stTiny_eq, cfgTiny, okOrder, List.getD, Int.fract]
    simp
  refine ⟨?_, ?_, ?_⟩
  · exact ⟨by simp [stTiny_eq], by norm_num [stTiny_eq]⟩
  · norm_num [belowMin, longQty, shortQty, singleTradeSize, pyRound, pyRoundInt,
      cfgTiny, Int.fract]
  · simp [run, hstep]

set_option maxRecDepth 8000 in
set_option maxHeartbeats 1000000 in
/-- C8 counterexample: with a 100 USD cap, one leg and a short-order
call that raises after the long order was accepted (`retCode = 0`), two
such cycles commit 200 USD on the long side — the cap is exceeded
because progress never advances. -/
theorem C8_counterexample :
    cfgOneLeg.max_usd_position = 100 ∧
    (run cfgOneLeg stOneLeg
        [⟨some 170, some 100, okOrder, Except.error ("ReadTimeout")⟩,
         ⟨some 170, some 100, okOrder, Except.error ("ReadTimeout")⟩]).spent = 200 ∧
    cfgOneLeg.max_usd_position <
      (run cfgOneLeg stOneLeg
        [⟨some 170, some 100, okOrder, Except.error ("ReadTimeout")⟩,
         ⟨some 170, some 100, okOrder, Except.error ("ReadTimeout")⟩]).spent := by
  have hstep : step cfgOneLeg stOneLeg
        ⟨some 170, some 100, okOrder, Except.error ("ReadTimeout")⟩
      = ⟨stOneLeg, [⟨"LONG", Side.Buy, 59/100⟩, ⟨"SHORT", Side.Sell, 1⟩],
          100, none⟩ := by
    norm_num [step, monitorBody, tradeScaleIn, tradeSingleShot, singleShotFires,
      scaleInFires, belowMin, longQty, shortQty, singleTradeSize, legTradeSize,
      Config.scale_in_leg_size, pyRound, pyRoundInt, optTruthy, place_market_order,
      orderSuccess, stOneLeg_eq, cfgOneLeg, okOrder, List.getD, Int.fract]
    simp
  refine ⟨by norm_num [cfgOneLeg], ?_, ?_⟩
  all_goals simp [run, hstep]
  all_goals norm_num [cfgOneLeg]

/-- C1 (amended): when both orders of a hedge attempt return structured
failures, no position is opened and nothing is committed in either path;
the single-shot path stays in Monitoring with unchanged state and
re-evaluates the same leg later, but the scale-in path breaks out of the
loop instead of retrying. -/
theorem C1_amended (cfg : Config) (st : BotState) (inp : CycleInput)
    (lp sp : ℚ) (r1 r2 : OrderResp)
    (hlp : inp.long_price = some lp) (hl0 : lp ≠ 0)
    (hsp : inp.short_price = some sp) (hs0 : sp ≠ 0)
    (hb : st.initial_ratio ≠ none)
    (h1 : place_market_order inp.longPost = Except.ok r1)
    (h2 : place_market_order inp.shortPost = Except.ok r2)
    (hf1 : orderSuccess r1 = false) (hf2 : orderSuccess r2 = false) :
    (cfg.enable_scale_in = false → singleShotFires st (lp / sp) →
      ¬ belowMin (singleTradeSize cfg) lp sp →
      (step cfg st inp).state = st ∧ (step cfg st inp).exit = none ∧
      (step cfg st inp).spent = 0) ∧
    (cfg.enable_scale_in = true → scaleInFires cfg st (lp / sp) →
      st.trigger_ratio ≠ none →
      ¬ legTradeSize cfg st.scale_in_executed ≤ 0 →
      ¬ belowMin (legTradeSize cfg st.scale_in_executed) lp sp →
      (step cfg st inp).exit = some ExitReason.scaleInHaltBothFailed ∧
      (step cfg st inp).state = st ∧ (step cfg st inp).spent = 0) := by
  constructor
  · intro hen hf hbm
    rw [step_to_monitor cfg st inp lp sp hlp hl0 hsp hs0 hb,
        monitor_to_single cfg st inp lp sp hs0 hen hf,
        tradeSingleShot_bothFail cfg st inp lp sp r1 r2 hbm h1 h2 hf1 hf2]
    exact ⟨rfl, rfl, rfl⟩
  · intro hen hf htr hts hbm
    rw [step_to_monitor cfg st inp lp sp hlp hl0 hsp hs0 hb,
        monitor_to_scaleIn cfg st inp lp sp hs0 htr hen hf,
        tradeScaleIn_bothFail cfg st inp lp sp r1 r2 hts hbm h1 h2 hf1 hf2]
    exact ⟨rfl, rfl, rfl⟩

/-- Concrete instantiation of `C1_amended`: both orders rejected with
code 10001 on the single-shot fixture. -/
theorem C1_amended_witness :
    (cfgSingle.enable_scale_in = false →
      singleShotFires stSingle ((170 : ℚ) / 100) →
      ¬ belowMin (singleTradeSize cfgSingle) 170 100 →
      (step cfgSingle stSingle ⟨some 170, some 100, rejOrder, rejOrder⟩).state
        = stSingle ∧
      (step cfgSingle stSingle ⟨some 170, some 100, rejOrder, rejOrder⟩).exit
        = none ∧
      (step cfgSingle stSingle ⟨some 170, some 100, rejOrder, rejOrder⟩).spent
        = 0) ∧
    (cfgSingle.enable_scale_in = true →
      scaleInFires cfgSingle stSingle ((170 : ℚ) / 100) →
      stSingle.trigger_ratio ≠ none →
      ¬ legTradeSize cfgSingle stSingle.scale_in_executed ≤ 0 →
      ¬ belowMin (legTradeSize cfgSingle stSingle.scale_in_executed) 170 100 →
      (step cfgSingle stSingle ⟨some 170, some 100, rejOrder, rejOrder⟩).exit
        = some ExitReason.scaleInHaltBothFailed ∧
      (step cfgSingle stSingle ⟨some 170, some 100, rejOrder, rejOrder⟩).state
        = stSingle ∧
      (step cfgSingle stSingle ⟨some 170, some 100, rejOrder, rejOrder⟩).spent
        = 0) :=
  C1_amended cfgSingle stSingle ⟨some 170, some 100, rejOrder, rejOrder⟩
    170 100 ⟨some 10001, some ("insufficient balance")⟩
    ⟨some 10001, some ("insufficient balance")⟩
    rfl (by norm_num) rfl (by norm_num) (by simp [stSingle_eq]) rfl rfl rfl rfl

/-- C3 (amended): a decodable venue response is returned by
`place_market_order` as a structured outcome judged by `retCode = 0`
(any other code is a failure carrying the venue message), but a
transport or decode error is a raised exception; it is caught only at
the loop boundary — the loop continues with unchanged state and the
hedge attempt is abandoned after the first Order Gateway call, before
the two legs could be jointly evaluated. -/
theorem C3_amended (cfg : Config) (st : BotState) (inp : CycleInput)
    (lp sp : ℚ) (e msg : String) (j : OrderResp)
    (hlp : inp.long_price = some lp) (hl0 : lp ≠ 0)
    (hsp : inp.short_price = some sp) (hs0 : sp ≠ 0)
    (hb : st.initial_ratio ≠ none) (hj : j.retCode ≠ some 0) :
    place_market_order (Except.ok ⟨some j⟩) = Except.ok j ∧
    place_market_order (Except.error msg) = Except.error msg ∧
    orderSuccess j = false ∧
    (cfg.enable_scale_in = false → singleShotFires st (lp / sp) →
      ¬ belowMin (singleTradeSize cfg) lp sp →
      place_market_order inp.longPost = Except.error e →
      (step cfg st inp).exit = none ∧ (step cfg st inp).state = st ∧
      (step cfg st inp).orders
        = [⟨cfg.symbol_long, Side.Buy, longQty (singleTradeSize cfg) lp⟩]) := by
  refine ⟨rfl, rfl, by simp [orderSuccess, hj], ?_⟩
  intro hen hf hbm herr
  rw [step_to_monitor cfg st inp lp sp hlp hl0 hsp hs0 hb,
      monitor_to_single cfg st inp lp sp hs0 hen hf,
      tradeSingleShot_longRaises cfg st inp lp sp e hbm herr]
  exact ⟨rfl, rfl, rfl⟩

/-- Concrete instantiation of `C3_amended`: a transport error on the
long-order call of the single-shot fixture, and the venue rejection
response with code 10001. -/
theorem C3_amended_witness :
    place_market_order (Except.ok ⟨some ⟨some 10001, some ("insufficient balance")⟩⟩)
      = Except.ok ⟨some 10001, some ("insufficient balance")⟩ ∧
    place_market_order (Except.error ("ConnectionError"))
      = Except.error ("ConnectionError") ∧
    orderSuccess ⟨some 10001, some ("insufficient balance")⟩ = false ∧
    (cfgSingle.enable_scale_in = false →
      singleShotFires stSingle ((170 : ℚ) / 100) →
      ¬ belowMin (singleTradeSize cfgSingle) 170 100 →
      place_market_order
          (CycleInput.longPost ⟨some 170, some 100,
            Except.error ("ConnectionError"), okOrder⟩)
        = Except.error ("ConnectionError") →
      (step cfgSingle stSingle
          ⟨some 170, some 100, Except.error ("ConnectionError"), okOrder⟩).exit
        = none ∧
      (step cfgSingle stSingle
          ⟨some 170, some 100, Except.error ("ConnectionError"), okOrder⟩).state
        = stSingle ∧
      (step cfgSingle stSingle
          ⟨some 170, some 100, Except.error ("ConnectionError"), okOrder⟩).orders
        = [⟨cfgSingle.symbol_long, Side.Buy,
            longQty (singleTradeSize cfgSingle) 170⟩]) :=
  C3_amended cfgSingle stSingle
    ⟨some 170, some 100, Except.error ("ConnectionError"), okOrder⟩
    170 100 "ConnectionError" "ConnectionError"
    ⟨some 10001, some ("insufficient balance")⟩
    rfl (by norm_num) rfl (by norm_num) (by simp [stSingle_eq]) (by decide)

/-- C4 (amended): a triggered leg whose notional is below the 1 USD
minimum places no order in either path; in the scale-in path progress
advances and exhausting all legs ends in the distinct all-legs-skipped
stop, but in the single-shot path the engine merely skips the cycle:
no progress is recorded and no terminal condition is ever reached. -/
theorem C4_amended (cfg : Config) (st : BotState) (inp : CycleInput)
    (lp sp : ℚ)
    (hlp : inp.long_price = some lp) (hl0 : lp ≠ 0)
    (hsp : inp.short_price = some sp) (hs0 : sp ≠ 0)
    (hb : st.initial_ratio ≠ none) :
    (cfg.enable_scale_in = true → scaleInFires cfg st (lp / sp) →
      st.trigger_ratio ≠ none →
      ¬ legTradeSize cfg st.scale_in_executed ≤ 0 →
      belowMin (legTradeSize cfg st.scale_in_executed) lp sp →
      (step cfg st inp).orders = [] ∧
      (step cfg st inp).state.scale_in_executed = st.scale_in_executed + 1 ∧
      (step cfg st inp).exit =
        (if st.scale_in_executed + 1 ≥ cfg.scale_in_legs
          then some ExitReason.allLegsSkipped else none)) ∧
    (cfg.enable_scale_in = false → singleShotFires st (lp / sp) →
      belowMin (singleTradeSize cfg) lp sp →
      step cfg st inp = ⟨st, [], 0, none⟩) := by
  constructor
  · intro hen hf htr hts hbm
    rw [step_to_monitor cfg st inp lp sp hlp hl0 hsp hs0 hb,
        monitor_to_scaleIn cfg st inp lp sp hs0 htr hen hf]
    by_cases hge : st.scale_in_executed + 1 ≥ cfg.scale_in_legs
    · rw [tradeScaleIn_belowMin_last cfg st inp lp sp hts hbm hge, if_pos hge]
      exact ⟨rfl, rfl, rfl⟩
    · rw [tradeScaleIn_belowMin_more cfg st inp lp sp hts hbm hge, if_neg hge]
      exact ⟨rfl, rfl, rfl⟩
  · intro hen hf hbm
    rw [step_to_monitor cfg st inp lp sp hlp hl0 hsp hs0 hb,
        monitor_to_single cfg st inp lp sp hs0 hen hf,
        tradeSingleShot_belowMin cfg st inp lp sp hbm]

/-- Concrete instantiation of `C4_amended`: at prices 10^6 / 10^6 the
triggered first scale-in leg rounds to zero quantity and is skipped with
progress advanced and no stop (legs remain). -/
theorem C4_amended_witness :
    (cfgScale3.enable_scale_in = true →
      scaleInFires cfgScale3 stScale3 ((1000000 : ℚ) / 1000000) →
      stScale3.trigger_ratio ≠ none →
      ¬ legTradeSize cfgScale3 stScale3.scale_in_executed ≤ 0 →
      belowMin (legTradeSize cfgScale3 stScale3.scale_in_executed)
        1000000 1000000 →
      (step cfgScale3 stScale3
          ⟨some 1000000, some 1000000, okOrder, okOrder⟩).orders = [] ∧
      (step cfgScale3 stScale3
          ⟨some 1000000, some 1000000, okOrder, okOrder⟩).state.scale_in_executed
        = stScale3.scale_in_executed + 1 ∧
      (step cfgScale3 stScale3
          ⟨some 1000000, some 1000000, okOrder, okOrder⟩).exit =
        (if stScale3.scale_in_executed + 1 ≥ cfgScale3.scale_in_legs
          then some ExitReason.allLegsSkipped else none)) ∧
    (cfgScale3.enable_scale_in = false →
      singleShotFires stScale3 ((1000000 : ℚ) / 1000000) →
      belowMin (singleTradeSize cfgScale3) 1000000 1000000 →
      step cfgScale3 stScale3 ⟨some 1000000, some 1000000, okOrder, okOrder⟩
        = ⟨stScale3, [], 0, none⟩) :=
  C4_amended cfgScale3 stScale3 ⟨some 1000000, some 1000000, okOrder, okOrder⟩
    1000000 1000000 rfl (by norm_num) rfl (by norm_num) (by simp [stScale3_eq])

/-- C5: a hedge attempt in which exactly one order succeeds makes the
engine break out of the loop with the unhedged side reported, after that
single order pair; over any continuation of cycle inputs no further
order is ever issued — the orders of the whole run are exactly that one pair.
Holds in the single-shot and the scale-in path. -/
theorem C5_unhedged_halt (cfg : Config) (st : BotState) (inp : CycleInput)
    (lp sp : ℚ) (r1 r2 : OrderResp) (rest : List CycleInput)
    (hlp : inp.long_price = some lp) (hl0 : lp ≠ 0)
    (hsp : inp.short_price = some sp) (hs0 : sp ≠ 0)
    (hb : st.initial_ratio ≠ none)
    (h1 : place_market_order inp.longPost = Except.ok r1)
    (h2 : place_market_order inp.shortPost = Except.ok r2)
    (hne : orderSuccess r1 ≠ orderSuccess r2) :
    (cfg.enable_scale_in = false → singleShotFires st (lp / sp) →
      ¬ belowMin (singleTradeSize cfg) lp sp →
      (step cfg st inp).exit
        = some (if orderSuccess r1 then ExitReason.unhedgedLong
            else ExitReason.unhedgedShort) ∧
      (run cfg st (inp :: rest)).orders
        = [⟨cfg.symbol_long, Side.Buy, longQty (singleTradeSize cfg) lp⟩,
           ⟨cfg.symbol_short, Side.Sell, shortQty (singleTradeSize cfg) sp⟩] ∧
      (run cfg st (inp :: rest)).exit = (step cfg st inp).exit) ∧
    (cfg.enable_scale_in = true → scaleInFires cfg st (lp / sp) →
      st.trigger_ratio ≠ none →
      ¬ legTradeSize cfg st.scale_in_executed ≤ 0 →
      ¬ belowMin (legTradeSize cfg st.scale_in_executed) lp sp →
      (step cfg st inp).exit
        = some (if orderSuccess r1 then ExitReason.scaleInHaltLongOnly
            else ExitReason.scaleInHaltShortOnly) ∧
      (run cfg st (inp :: rest)).orders
        = [⟨cfg.symbol_long, Side.Buy,
              longQty (legTradeSize cfg st.scale_in_executed) lp⟩,
           ⟨cfg.symbol_short, Side.Sell,
              shortQty (legTradeSize cfg st.scale_in_executed) sp⟩] ∧
      (run cfg st (inp :: rest)).exit = (step cfg st inp).exit) := by
  constructor
  · intro hen hf hbm
    have hred : step cfg st inp = tradeSingleShot cfg st inp lp sp := by
      rw [step_to_monitor cfg st inp lp sp hlp hl0 hsp hs0 hb,
          monitor_to_single cfg st inp lp sp hs0 hen hf]
    cases hls : orderSuccess r1 with
    | false =>
      cases hss : orderSuccess r2 with
      | false => exact absurd (hls.trans hss.symm) hne
      | true =>
        have hstep : step cfg st inp =
            ⟨st, [⟨cfg.symbol_long, Side.Buy, longQty (singleTradeSize cfg) lp⟩,
                  ⟨cfg.symbol_short, Side.Sell, shortQty (singleTradeSize cfg) sp⟩],
              singleTradeSize cfg, some ExitReason.unhedgedShort⟩ := by
          rw [hred, tradeSingleShot_shortOnly cfg st inp lp sp r1 r2 hbm h1 h2 hls hss]
        rw [run_cons_exit cfg st inp rest ExitReason.unhedgedShort (by rw [hstep]),
            hstep]
        simp
    | true =>
      cases hss : orderSuccess r2 with
      | true => exact absurd (hls.trans hss.symm) hne
      | false =>
        have hstep : step cfg st inp =
            ⟨st, [⟨cfg.symbol_long, Side.Buy, longQty (singleTradeSize cfg) lp⟩,
                  ⟨cfg.symbol_short, Side.Sell, shortQty (singleTradeSize cfg) sp⟩],
              singleTradeSize cfg, some ExitReason.unhedgedLong⟩ := by
          rw [hred, tradeSingleShot_longOnly cfg st inp lp sp r1 r2 hbm h1 h2 hls hss]
        rw [run_cons_exit cfg st inp rest ExitReason.unhedgedLong (by rw [hstep]),
            hstep]
        simp
  · intro hen hf htr hts hbm
    have hred : step cfg st inp = tradeScaleIn cfg st inp lp sp := by
      rw [step_to_monitor cfg st inp lp sp hlp hl0 hsp hs0 hb,
          monitor_to_scaleIn cfg st inp lp sp hs0 htr hen hf]
    cases hls : orderSuccess r1 with
    | false =>
      cases hss : orderSuccess r2 with
      | false => exact absurd (hls.trans hss.symm) hne
      | true =>
        have hstep : step cfg st inp =
            ⟨st, [⟨cfg.symbol_long, Side.Buy,
                    longQty (legTradeSize cfg st.scale_in_executed) lp⟩,
                  ⟨cfg.symbol_short, Side.Sell,
                    shortQty (legTradeSize cfg st.scale_in_executed) sp⟩],
              legTradeSize cfg st.scale_in_executed,
              some ExitReason.scaleInHaltShortOnly⟩ := by
          rw [hred, tradeScaleIn_shortOnly cfg st inp lp sp r1 r2 hts hbm h1 h2 hls hss]
        rw [run_cons_exit cfg st inp rest ExitReason.scaleInHaltShortOnly (by rw [hstep]),
            hstep]
        simp
    | true =>
      cases hss : orderSuccess r2 with
      | true => exact absurd (hls.trans hss.symm) hne
      | false =>
        have hstep : step cfg st inp =
            ⟨st, [⟨cfg.symbol_long, Side.Buy,
                    longQty (legTradeSize cfg st.scale_in_executed) lp⟩,
                  ⟨cfg.symbol_short, Side.Sell,
                    shortQty (legTradeSize cfg st.scale_in_executed) sp⟩],
              legTradeSize cfg st.scale_in_executed,
              some ExitReason.scaleInHaltLongOnly⟩ := by
          rw [hred, tradeScaleIn_longOnly cfg st inp lp sp r1 r2 hts hbm h1 h2 hls hss]
        rw [run_cons_exit cfg st inp rest ExitReason.scaleInHaltLongOnly (by rw [hstep]),
            hstep]
        simp

/-- Concrete instantiation of `C5_unhedged_halt`: long accepted, short
rejected on the single-shot fixture, with one further cycle available
that is never reached. -/
theorem C5_unhedged_halt_witness :
    (cfgSingle.enable_scale_in = false →
      singleShotFires stSingle ((170 : ℚ) / 100) →
      ¬ belowMin (singleTradeSize cfgSingle) 170 100 →
      (step cfgSingle stSingle ⟨some 170, some 100, okOrder, rejOrder⟩).exit
        = some (if orderSuccess ⟨some 0, none⟩ then ExitReason.unhedgedLong
            else ExitReason.unhedgedShort) ∧
      (run cfgSingle stSingle
          [⟨some 170, some 100, okOrder, rejOrder⟩,
           ⟨some 170, some 100, okOrder, okOrder⟩]).orders
        = [⟨cfgSingle.symbol_long, Side.Buy, longQty (singleTradeSize cfgSingle) 170⟩,
           ⟨cfgSingle.symbol_short, Side.Sell, shortQty (singleTradeSize cfgSingle) 100⟩] ∧
      (run cfgSingle stSingle
          [⟨some 170, some 100, okOrder, rejOrder⟩,
           ⟨some 170, some 100, okOrder, okOrder⟩]).exit
        = (step cfgSingle stSingle ⟨some 170, some 100, okOrder, rejOrder⟩).exit) ∧
    (cfgSingle.enable_scale_in = true →
      scaleInFires cfgSingle stSingle ((170 : ℚ) / 100) →
      stSingle.trigger_ratio ≠ none →
      ¬ legTradeSize cfgSingle stSingle.scale_in_executed ≤ 0 →
      ¬ belowMin (legTradeSize cfgSingle stSingle.scale_in_executed) 170 100 →
      (step cfgSingle stSingle ⟨some 170, some 100, okOrder, rejOrder⟩).exit
        = some (if orderSuccess ⟨some 0, none⟩ then ExitReason.scaleInHaltLongOnly
            else ExitReason.scaleInHaltShortOnly) ∧
      (run cfgSingle stSingle
          [⟨some 170, some 100, okOrder, rejOrder⟩,
           ⟨some 170, some 100, okOrder, okOrder⟩]).orders
        = [⟨cfgSingle.symbol_long, Side.Buy,
              longQty (legTradeSize cfgSingle stSingle.scale_in_executed) 170⟩,
           ⟨cfgSingle.symbol_short, Side.Sell,
              shortQty (legTradeSize cfgSingle stSingle.scale_in_executed) 100⟩] ∧
      (run cfgSingle stSingle
          [⟨some 170, some 100, okOrder, rejOrder⟩,
           ⟨some 170, some 100, okOrder, okOrder⟩]).exit
        = (step cfgSingle stSingle ⟨some 170, some 100, okOrder, rejOrder⟩).exit) :=
  C5_unhedged_halt cfgSingle stSingle ⟨some 170, some 100, okOrder, rejOrder⟩
    170 100 ⟨some 0, none⟩ ⟨some 10001, some ("insufficient balance")⟩
    [⟨some 170, some 100, okOrder, okOrder⟩]
    rfl (by norm_num) rfl (by norm_num) (by simp [stSingle_eq]) rfl rfl (by decide)

/-! ## Spending accounting for the position cap -/

/-- Scale-in leg, both orders succeed: progress advances, the trade size
of the leg is committed, and the run stops only when it was the last leg. -/
theorem tradeScaleIn_bothOk (cfg : Config) (st : BotState)
    (inp : CycleInput) (lp sp : ℚ) (r1 r2 : OrderResp)
    (ht : ¬ legTradeSize cfg st.scale_in_executed ≤ 0)
    (hbm : ¬ belowMin (legTradeSize cfg st.scale_in_executed) lp sp)
    (h1 : place_market_order inp.longPost = Except.ok r1)
    (h2 : place_market_order inp.shortPost = Except.ok r2)
    (hs1 : orderSuccess r1 = true) (hs2 : orderSuccess r2 = true) :
    tradeScaleIn cfg st inp lp sp =
      ⟨{ st with scale_in_executed := st.scale_in_executed + 1 },
        [⟨cfg.symbol_long, Side.Buy,
            longQty (legTradeSize cfg st.scale_in_executed) lp⟩,
         ⟨cfg.symbol_short, Side.Sell,
            shortQty (legTradeSize cfg st.scale_in_executed) sp⟩],
        legTradeSize cfg st.scale_in_executed,
        if st.scale_in_executed + 1 ≥ cfg.scale_in_legs
          then some ExitReason.scaleInCompleted else none⟩ := by
  simp only [tradeScaleIn, if_neg ht, if_neg hbm, h1, h2, hs1, hs2]
  by_cases hge : st.scale_in_executed + 1 ≥ cfg.scale_in_legs <;> simp [hge]

/-- Single shot, both orders succeed: the trade size is committed and
the engine stops as Completed. -/
theorem tradeSingleShot_bothOk (cfg : Config) (st : BotState)
    (inp : CycleInput) (lp sp : ℚ) (r1 r2 : OrderResp)
    (hbm : ¬ belowMin (singleTradeSize cfg) lp sp)
    (h1 : place_market_order inp.longPost = Except.ok r1)
    (h2 : place_market_order inp.shortPost = Except.ok r2)
    (hs1 : orderSuccess r1 = true) (hs2 : orderSuccess r2 = true) :
    tradeSingleShot cfg st inp lp sp =
      ⟨st, [⟨cfg.symbol_long, Side.Buy, longQty (singleTradeSize cfg) lp⟩,
            ⟨cfg.symbol_short, Side.Sell, shortQty (singleTradeSize cfg) sp⟩],
        singleTradeSize cfg, some ExitReason.completed⟩ := by
  simp only [tradeSingleShot, if_neg hbm, h1, h2, hs1, hs2]
  simp

/-- Classification of a fired scale-in leg whose two order calls both
return structured responses: either nothing is committed and progress
does not go backwards, or exactly the (positive) trade size of the leg is
committed and the engine either breaks or advances progress by one. -/
theorem tradeScaleIn_classify (cfg : Config) (st : BotState)
    (inp : CycleInput) (lp sp : ℚ)
    (hlt : st.scale_in_executed < cfg.scale_in_legs)
    (h1 : ∃ a, place_market_order inp.longPost = Except.ok a)
    (h2 : ∃ a, place_market_order inp.shortPost = Except.ok a) :
    ((tradeScaleIn cfg st inp lp sp).spent = 0 ∧
      st.scale_in_executed ≤ (tradeScaleIn cfg st inp lp sp).state.scale_in_executed) ∨
    ((tradeScaleIn cfg st inp lp sp).spent = legTradeSize cfg st.scale_in_executed ∧
      0 < legTradeSize cfg st.scale_in_executed ∧
      ((tradeScaleIn cfg st inp lp sp).exit ≠ none ∨
        (tradeScaleIn cfg st inp lp sp).state.scale_in_executed
          = st.scale_in_executed + 1)) := by
  obtain ⟨r1, hr1⟩ := h1
  obtain ⟨r2, hr2⟩ := h2
  by_cases ht : legTradeSize cfg st.scale_in_executed ≤ 0
  · rw [tradeScaleIn_capReached cfg st inp lp sp ht]
    exact Or.inl ⟨rfl, le_of_lt hlt⟩
  · by_cases hbm : belowMin (legTradeSize cfg st.scale_in_executed) lp sp
    · by_cases hge : st.scale_in_executed + 1 ≥ cfg.scale_in_legs
      · rw [tradeScaleIn_belowMin_last cfg st inp lp sp ht hbm hge]
        exact Or.inl ⟨rfl, Nat.le_succ _⟩
      · rw [tradeScaleIn_belowMin_more cfg st inp lp sp ht hbm hge]
        exact Or.inl ⟨rfl, Nat.le_succ _⟩
    · cases hls : orderSuccess r1 with
      | false =>
        cases hss : orderSuccess r2 with
        | false =>
          rw [tradeScaleIn_bothFail cfg st inp lp sp r1 r2 ht hbm hr1 hr2 hls hss]
          exact Or.inl (by simp)
        | true =>
          rw [tradeScaleIn_shortOnly cfg st inp lp sp r1 r2 ht hbm hr1 hr2 hls hss]
          exact Or.inr ⟨rfl, not_le.mp ht, Or.inl (by simp)⟩
      | true =>
        cases hss : orderSuccess r2 with
        | false =>
          rw [tradeScaleIn_longOnly cfg st inp lp sp r1 r2 ht hbm hr1 hr2 hls hss]
          exact Or.inr ⟨rfl, not_le.mp ht, Or.inl (by simp)⟩
        | true =>
          rw [tradeScaleIn_bothOk cfg st inp lp sp r1 r2 ht hbm hr1 hr2 hls hss]
          exact Or.inr ⟨rfl, not_le.mp ht, Or.inr rfl⟩

/-- Classification of a fired single-shot attempt whose two order calls
both return structured responses: either nothing is committed, or the
single trade size is committed and the engine breaks. -/
theorem tradeSingleShot_classify (cfg : Config) (st : BotState)
    (inp : CycleInput) (lp sp : ℚ)
    (h1 : ∃ a, place_market_order inp.longPost = Except.ok a)
    (h2 : ∃ a, place_market_order inp.shortPost = Except.ok a) :
    (tradeSingleShot cfg st inp lp sp).spent = 0 ∨
    ((tradeSingleShot cfg st inp lp sp).spent = singleTradeSize cfg ∧
      (tradeSingleShot cfg st inp lp sp).exit ≠ none) := by
  obtain ⟨r1, hr1⟩ := h1
  obtain ⟨r2, hr2⟩ := h2
  by_cases hbm : belowMin (singleTradeSize cfg) lp sp
  · rw [tradeSingleShot_belowMin cfg st inp lp sp hbm]
    exact Or.inl (by simp)
  · cases hls : orderSuccess r1 with
    | false =>
      cases hss : orderSuccess r2 with
      | false =>
        rw [tradeSingleShot_bothFail cfg st inp lp sp r1 r2 hbm hr1 hr2 hls hss]
        exact Or.inl (by simp)
      | true =>
        rw [tradeSingleShot_shortOnly cfg st inp lp sp r1 r2 hbm hr1 hr2 hls hss]
        exact Or.inr ⟨rfl, by simp⟩
    | true =>
      cases hss : orderSuccess r2 with
      | false =>
        rw [tradeSingleShot_longOnly cfg st inp lp sp r1 r2 hbm hr1 hr2 hls hss]
        exact Or.inr ⟨rfl, by simp⟩
      | true =>
        rw [tradeSingleShot_bothOk cfg st inp lp sp r1 r2 hbm hr1 hr2 hls hss]
        exact Or.inr ⟨rfl, by simp⟩

/-- The scale-in classification lifted to the monitoring body. -/
theorem monitor_classify_scaleIn (cfg : Config) (st : BotState)
    (inp : CycleInput) (lp sp : ℚ) (hen : cfg.enable_scale_in = true)
    (h1 : ∃ a, place_market_order inp.longPost = Except.ok a)
    (h2 : ∃ a, place_market_order inp.shortPost = Except.ok a) :
    ((monitorBody cfg st inp lp sp).spent = 0 ∧
      st.scale_in_executed ≤ (monitorBody cfg st inp lp sp).state.scale_in_executed) ∨
    ((monitorBody cfg st inp lp sp).spent = legTradeSize cfg st.scale_in_executed ∧
      0 < legTradeSize cfg st.scale_in_executed ∧
      ((monitorBody cfg st inp lp sp).exit ≠ none ∨
        (monitorBody cfg st inp lp sp).state.scale_in_executed
          = st.scale_in_executed + 1)) := by
  simp only [monitorBody]
  by_cases h0 : sp = 0
  · simp only [if_pos h0]
    exact Or.inl (by simp)
  · simp only [if_neg h0]
    by_cases htr : st.trigger_ratio = none
    · simp only [if_pos htr]
      exact Or.inl (by simp)
    · simp only [if_neg htr, if_pos hen]
      by_cases hfire : scaleInFires cfg st (lp / sp)
      · simp only [if_pos hfire]
        exact tradeScaleIn_classify cfg st inp lp sp hfire.1 h1 h2
      · simp only [if_neg hfire]
        exact Or.inl (by simp)

/-- The single-shot classification lifted to the monitoring body. -/
theorem monitor_classify_single (cfg : Config) (st : BotState)
    (inp : CycleInput) (lp sp : ℚ) (hen : cfg.enable_scale_in = false)
    (h1 : ∃ a, place_market_order inp.longPost = Except.ok a)
    (h2 : ∃ a, place_market_order inp.shortPost = Except.ok a) :
    (monitorBody cfg st inp lp sp).spent = 0 ∨
    ((monitorBody cfg st inp lp sp).spent = singleTradeSize cfg ∧
      (monitorBody cfg st inp lp sp).exit ≠ none) := by
  have hen' : ¬ (cfg.enable_scale_in = true) := by simp [hen]
  simp only [monitorBody]
  by_cases h0 : sp = 0
  · simp only [if_pos h0]
    exact Or.inl (by simp)
  · simp only [if_neg h0]
    by_cases htr : st.trigger_ratio = none
    · simp only [if_pos htr]
      exact Or.inl (by simp)
    · simp only [if_neg htr, if_neg hen']
      by_cases hfire : singleShotFires st (lp / sp)
      · simp only [if_pos hfire]
        exact tradeSingleShot_classify cfg st inp lp sp h1 h2
      · simp only [if_neg hfire]
        exact Or.inl (by simp)

/-- The scale-in classification lifted to a whole cycle. -/
theorem step_classify_scaleIn (cfg : Config) (st : BotState)
    (inp : CycleInput) (hen : cfg.enable_scale_in = true)
    (h1 : ∃ a, place_market_order inp.longPost = Except.ok a)
    (h2 : ∃ a, place_market_order inp.shortPost = Except.ok a) :
    ((step cfg st inp).spent = 0 ∧
      st.scale_in_executed ≤ (step cfg st inp).state.scale_in_executed) ∨
    ((step cfg st inp).spent = legTradeSize cfg st.scale_in_executed ∧
      0 < legTradeSize cfg st.scale_in_executed ∧
      ((step cfg st inp).exit ≠ none ∨
        (step cfg st inp).state.scale_in_executed = st.scale_in_executed + 1)) := by
  simp only [step]
  by_cases hp : (!(optTruthy inp.long_price) || !(optTruthy inp.short_price)) = true
  · simp only [if_pos hp]
    exact Or.inl (by simp)
  · simp only [if_neg hp]
    by_cases hin : st.initial_ratio = none
    · simp only [if_pos hin]
      by_cases hsp0 : inp.short_price.getD 0 = 0
      · simp only [if_pos hsp0]
        exact Or.inl (by simp)
      · simp only [if_neg hsp0]
        exact monitor_classify_scaleIn cfg _ inp _ _ hen h1 h2
    · simp only [if_neg hin]
      exact monitor_classify_scaleIn cfg st inp _ _ hen h1 h2

/-- The single-shot classification lifted to a whole cycle. -/
theorem step_classify_single (cfg : Config) (st : BotState)
    (inp : CycleInput) (hen : cfg.enable_scale_in = false)
    (h1 : ∃ a, place_market_order inp.longPost = Except.ok a)
    (h2 : ∃ a, place_market_order inp.shortPost = Except.ok a) :
    (step cfg st inp).spent = 0 ∨
    ((step cfg st inp).spent = singleTradeSize cfg ∧
      (step cfg st inp).exit ≠ none) := by
  simp only [step]
  by_cases hp : (!(optTruthy inp.long_price) || !(optTruthy inp.short_price)) = true
  · simp only [if_pos hp]
    exact Or.inl (by simp)
  · simp only [if_neg hp]
    by_cases hin : st.initial_ratio = none
    · simp only [if_pos hin]
      by_cases hsp0 : inp.short_price.getD 0 = 0
      · simp only [if_pos hsp0]
        exact Or.inl (by simp)
      · simp only [if_neg hsp0]
        exact monitor_classify_single cfg _ inp _ _ hen h1 h2
    · simp only [if_neg hin]
      exact monitor_classify_single cfg st inp _ _ hen h1 h2

/-- Position-cap bound for scale-in runs whose order calls all return
structured responses: the total commitment is bounded by the remaining
capacity of the starting state. -/
theorem run_spent_scaleIn (cfg : Config) (hen : cfg.enable_scale_in = true)
    (hleg : 0 ≤ cfg.scale_in_leg_size) :
    ∀ (inputs : List CycleInput) (st : BotState),
      (∀ inp ∈ inputs, (∃ a, place_market_order inp.longPost = Except.ok a) ∧
        (∃ a, place_market_order inp.shortPost = Except.ok a)) →
      (run cfg st inputs).spent ≤
        max (cfg.max_usd_position
          - (st.scale_in_executed : ℚ) * cfg.scale_in_leg_size) 0 := by
  intro inputs
  induction inputs with
  | nil =>
    intro st _
    simp [run]
  | cons inp rest ih =>
    intro st hoks
    have hcls := step_classify_scaleIn cfg st inp hen
      (hoks inp (by simp)).1 (hoks inp (by simp)).2
    simp only [run]
    cases hexit : (step cfg st inp).exit with
    | some r =>
      simp only [hexit]
      rcases hcls with ⟨hsp, _⟩ | ⟨hsp, hpos, _⟩
      · rw [hsp]
        exact le_max_right _ _
      · rw [hsp]
        exact le_trans (min_le_right _ _) (le_max_left _ _)
    | none =>
      simp only [hexit]
      have htail := ih (step cfg st inp).state (fun i hi => hoks i (by simp [hi]))
      rcases hcls with ⟨hsp, hle⟩ | ⟨hsp, hpos, hor⟩
      · rw [hsp, zero_add]
        refine le_trans htail (max_le_max ?_ le_rfl)
        apply sub_le_sub_left
        exact mul_le_mul_of_nonneg_right (by exact_mod_cast hle) hleg
      · rcases hor with hne | heq
        · exact absurd hexit hne
        · rw [heq] at htail
          push_cast at htail
          rw [hsp]
          have h1 : legTradeSize cfg st.scale_in_executed ≤ cfg.scale_in_leg_size :=
            min_le_left _ _
          have h2 : legTradeSize cfg st.scale_in_executed ≤
              cfg.max_usd_position
                - (st.scale_in_executed : ℚ) * cfg.scale_in_leg_size :=
            min_le_right _ _
          have hrw : cfg.max_usd_position
              - ((st.scale_in_executed : ℚ) + 1) * cfg.scale_in_leg_size
              = (cfg.max_usd_position
                  - (st.scale_in_executed : ℚ) * cfg.scale_in_leg_size)
                - cfg.scale_in_leg_size := by ring
          rw [hrw] at htail
          rcases le_or_lt
              ((cfg.max_usd_position
                - (st.scale_in_executed : ℚ) * cfg.scale_in_leg_size)
                - cfg.scale_in_leg_size) 0 with hc | hc
          · rw [max_eq_right hc] at htail
            have hbig := le_max_left
              (cfg.max_usd_position
                - (st.scale_in_executed : ℚ) * cfg.scale_in_leg_size) (0 : ℚ)
            linarith
          · rw [max_eq_left (le_of_lt hc)] at htail
            have hbig := le_max_left
              (cfg.max_usd_position
                - (st.scale_in_executed : ℚ) * cfg.scale_in_leg_size) (0 : ℚ)
            linarith

/-- Position-cap bound for single-shot runs whose order calls all
return structured responses. -/
theorem run_spent_single (cfg : Config) (hen : cfg.enable_scale_in = false) :
    ∀ (inputs : List CycleInput) (st : BotState),
      (∀ inp ∈ inputs, (∃ a, place_market_order inp.longPost = Except.ok a) ∧
        (∃ a, place_market_order inp.shortPost = Except.ok a)) →
      (run cfg st inputs).spent ≤ max (singleTradeSize cfg) 0 := by
  intro inputs
  induction inputs with
  | nil =>
    intro st _
    simp [run]
  | cons inp rest ih =>
    intro st hoks
    have hcls := step_classify_single cfg st inp hen
      (hoks inp (by simp)).1 (hoks inp (by simp)).2
    simp only [run]
    cases hexit : (step cfg st inp).exit with
    | some r =>
      simp only [hexit]
      rcases hcls with hsp | ⟨hsp, _⟩
      · rw [hsp]
        exact le_max_right _ _
      · rw [hsp]
        exact le_max_left _ _
    | none =>
      simp only [hexit]
      have htail := ih (step cfg st inp).state (fun i hi => hoks i (by simp [hi]))
      rcases hcls with hsp | ⟨hsp, hne⟩
      · rw [hsp, zero_add]
        exact htail
      · exact absurd hexit hne

/-- C8 (amended): provided every order call of the run returns a
structured venue response (no transport/decode exception), the total
USD committed by a fresh engine never exceeds the Maximum USD Position,
in both paths; and a scale-in leg reached with no remaining capacity is
skipped with no Order Gateway call and progress jumped to terminal.
(With transport exceptions the cap can be exceeded — see the
counterexample.) -/
theorem C8_amended (cfg : Config) (st : BotState) (inputs : List CycleInput)
    (st' : BotState) (inp' : CycleInput) (lp' sp' : ℚ)
    (hoks : ∀ inp ∈ inputs,
      (∃ a, place_market_order inp.longPost = Except.ok a) ∧
      (∃ a, place_market_order inp.shortPost = Except.ok a))
    (husd : 0 ≤ cfg.usd_position_size)
    (hmax : 0 ≤ cfg.max_usd_position)
    (hstart : st.scale_in_executed = 0)
    (hrem : cfg.max_usd_position
      - (st'.scale_in_executed : ℚ) * cfg.scale_in_leg_size ≤ 0) :
    (run cfg st inputs).spent ≤ cfg.max_usd_position ∧
    tradeScaleIn cfg st' inp' lp' sp' =
      ⟨{ st' with scale_in_executed := cfg.scale_in_legs }, [], 0, none⟩ := by
  have hleg : 0 ≤ cfg.scale_in_leg_size := by
    unfold Config.scale_in_leg_size
    split
    · exact div_nonneg husd (Nat.cast_nonneg _)
    · exact husd
  constructor
  · cases hen : cfg.enable_scale_in with
    | false =>
      refine le_trans (run_spent_single cfg hen inputs st hoks) ?_
      exact max_le (min_le_right _ _) hmax
    | true =>
      have hb := run_spent_scaleIn cfg hen hleg inputs st hoks
      rw [hstart] at hb
      refine le_trans hb ?_
      rw [Nat.cast_zero, zero_mul, sub_zero]
      exact max_le le_rfl hmax
  · exact tradeScaleIn_capReached cfg st' inp' lp' sp'
      (le_trans (min_le_right _ _) hrem)

/-- Concrete instantiation of `C8_amended`: one successful leg on the
three-leg fixture, and a capacity-exhausted state with progress 3. -/
theorem C8_amended_witness :
    (run cfgScale3 stScale3 [⟨some 170, some 100, okOrder, okOrder⟩]).spent
      ≤ cfgScale3.max_usd_position ∧
    tradeScaleIn cfgScale3 ⟨some 2, some (9/5), 3, [9/5, 44/25, 43/25]⟩
        ⟨some 170, some 100, okOrder, okOrder⟩ 170 100 =
      ⟨{ (⟨some 2, some (9/5), 3, [9/5, 44/25, 43/25]⟩ : BotState) with
          scale_in_executed := cfgScale3.scale_in_legs }, [], 0, none⟩ :=
  C8_amended cfgScale3 stScale3 [⟨some 170, some 100, okOrder, okOrder⟩]
    ⟨some 2, some (9/5), 3, [9/5, 44/25, 43/25]⟩
    ⟨some 170, some 100, okOrder, okOrder⟩ 170 100
    (by
      intro inp hinp
      simp only [List.mem_singleton] at hinp
      subst hinp
      exact ⟨⟨⟨some 0, none⟩, rfl⟩, ⟨⟨some 0, none⟩, rfl⟩⟩)
    (by norm_num [cfgScale3]) (by norm_num [cfgScale3])
    (by simp [stScale3_eq])
    (by norm_num [cfgScale3, Config.scale_in_leg_size])

end HedgeBot
